import Mathlib

/-!
Shallow embedding of `flask_social/core.py` (Flask-Social) and proofs about it.

Python mappings (`dict`) are modelled as association lists `List (String × V)`
whose lookup returns the first binding of a key; Python dicts never hold a key
twice, and all operations below preserve that discipline, but the lemmas are
stated so that they hold for arbitrary association lists where possible.

Python dict objects that are mutated in place and shared by reference (the
per-provider config dicts merged by `Social.init_app`) are modelled with an
explicit object heap: a list of dictionaries indexed by `Nat` references, so
that aliasing and in-place mutation are represented faithfully.

Python exceptions that matter to `core.py` are modelled by the `PyError` type
and fallible operations return `Except PyError _`.  Collaborators that live
outside `core.py` (the datastore, `current_user`, `get_display_name`,
`get_default_provider_names`, the compiled-in provider default configs and the
handler callbacks) are parameters of the corresponding definitions.
-/

/-- The Python exceptions observable in `flask_social/core.py`:
`ConnectionNotFoundError` (raised by the datastore), `NotImplementedError`
(raised by the abstract hooks `_create_api`, `get_provider_user_id`,
`get_connection_values`), and `UnboundLocalError` (raised when
`ConnectionFactory.get_connection` reads its local `connection` without any
branch having assigned it). -/
inductive PyError where
  | connectionNotFound
  | notImplemented
  | unboundLocal
deriving DecidableEq, Repr

/-- First-match lookup in an association list: the observable behaviour of
`d[k]` / `d.get(k)` on a Python dict (which never holds duplicate keys). -/
def dictGet {V : Type} : List (String × V) → String → Option V
  | [], _ => none
  | (k, v) :: d, key => if k = key then some v else dictGet d key

/-- `d[k] = v` on a Python dict: replace the binding in place if the key is
present, append it otherwise. -/
def dictSet {V : Type} : List (String × V) → String → V → List (String × V)
  | [], k, v => [(k, v)]
  | (k1, v1) :: d, k, v =>
      if k1 = k then (k, v) :: d else (k1, v1) :: dictSet d k v

/-- `d.update(a)` on Python dicts: keys already in `d` keep their position and
take the value from `a` when `a` has one; keys only in `a` are appended in
`a`'s order.  For key-unique inputs this reproduces both the lookup behaviour
and the iteration order of CPython's `dict.update`. -/
def dictUpdate {V : Type} (d a : List (String × V)) : List (String × V) :=
  d.map (fun p => match dictGet a p.1 with
    | some v => (p.1, v)
    | none => p)
  ++ a.filter (fun p => (dictGet d p.1).isNone)

/-- Left-biased choice on `Option`, used to state merge behaviour. -/
def orElseO {α : Type} : Option α → Option α → Option α
  | some a, _ => some a
  | none, b => b

/-- Values stored in Python dicts as far as `core.py`'s config handling is
concerned: strings, booleans, `None`, or references to other dict objects
(Python dicts are always handled by reference). -/
inductive HVal where
  | vstr (s : String)
  | vbool (b : Bool)
  | vnone
  | vref (r : Nat)
deriving DecidableEq, Repr

/-- A Python dict object holding config values. -/
abbrev Dict := List (String × HVal)

/-- The object heap: dict objects addressed by `Nat` references. -/
abbrev Heap := List Dict

/-- Dereference a dict object (a dangling reference yields the empty dict;
theorems carry explicit validity bounds where this matters). -/
def heapGet : Heap → Nat → Dict
  | [], _ => []
  | d :: _, 0 => d
  | _ :: h, r + 1 => heapGet h r

/-- In-place mutation of the dict object at a reference. -/
def heapSet : Heap → Nat → Dict → Heap
  | [], _, _ => []
  | _ :: h, 0, d => d :: h
  | d0 :: h, r + 1, d => d0 :: heapSet h r d

/-- Allocate a fresh dict object (used to model `dict.copy()`). -/
def heapAlloc (h : Heap) (d : Dict) : Heap × Nat :=
  (h ++ [d], h.length)

/-- Python `s.startswith(p)`. -/
def pyStartswith (s p : String) : Bool :=
  p.data.isPrefixOf s.data

/-- Does `pat` occur as a contiguous sublist?  (Python `pat in s`.) -/
def hasOccurL (pat : List Char) : List Char → Bool
  | [] => pat.isEmpty
  | c :: s => pat.isPrefixOf (c :: s) || hasOccurL pat s

/-- Fuelled engine for Python `str.replace`: scan left to right; at each
position where `pat` matches, emit `rep` and skip past the match, otherwise
keep the character.  The fuel only bounds recursion depth; with
`fuel ≥ s.length` it never runs out, because a match consumes at least one
character (the empty pattern is excluded by the guard). -/
def replaceFuel (pat rep : List Char) : Nat → List Char → List Char
  | _, [] => []
  | 0, s => s
  | fuel + 1, c :: s =>
      if (!pat.isEmpty && pat.isPrefixOf (c :: s)) then
        rep ++ replaceFuel pat rep fuel ((c :: s).drop pat.length)
      else
        c :: replaceFuel pat rep fuel s

/-- Python `s.replace(pat, rep)`: replace every non-overlapping occurrence of
`pat` in `s`, scanning left to right. -/
def pyReplace (s pat rep : String) : String :=
  String.mk (replaceFuel pat.data rep.data s.data.length s.data)

/-- Python `str.lower` on one character, restricted to ASCII, which is all
`core.py` applies it to (Flask config keys). -/
def pyLowerChar (c : Char) : Char :=
  if ('A' ≤ c ∧ c ≤ 'Z') then Char.ofNat (c.toNat + 32) else c

/-- Python `s.lower()` (ASCII range). -/
def pyLower (s : String) : String :=
  String.mk (s.data.map pyLowerChar)

/-- The keys of the module-level `default_config` dict of `core.py`
(lines 11-19): the global Social options that are *not* provider configs. -/
def defaultConfigKeys : List String :=
  ["SOCIAL_URL_PREFIX", "SOCIAL_APP_URL", "SOCIAL_CONNECT_ALLOW_REDIRECT",
   "SOCIAL_CONNECT_DENY_REDIRECT", "SOCIAL_FLASH_MESSAGES",
   "SOCIAL_POST_OAUTH_CONNECT_SESSION_KEY",
   "SOCIAL_POST_OAUTH_LOGIN_SESSION_KEY"]

/-- Line 207 of `core.py`:
`provider_id = key.replace('SOCIAL_', '').lower()`.  Note that Python's
`str.replace` removes *every* occurrence of the pattern, not only a leading
one. -/
def deriveProviderId (key : String) : String :=
  pyLower (pyReplace key ("SOCIAL_") (""))

/-- The specification's reading of line 207: remove only the *leading*
`'SOCIAL_'` prefix, leave the rest of the key untouched, then lowercase.
Stated from the spec's words, for comparison with `deriveProviderId`. -/
def stripLeadingLower (key : String) : String :=
  pyLower (String.mk (key.data.drop (("SOCIAL_").data.length)))

/-- Lines 215-224 of `core.py`, the deep-merge of a built-in provider's
compiled-in default config with the app-supplied config, acting on the object
heap:

```
d_config = get_class_from_string(co).copy()
d_oauth_config = d_config['oauth'].copy()
d_config.update(app.config[key])
d_oauth_config.update(app.config[key]['oauth'])
d_config['oauth'] = d_oauth_config
```

`defaultRef` is the heap reference of the compiled-in default config dict and
`appVal` the app-supplied value stored under the provider's config key (a
reference to the app's config dict for that provider).  Returns the heap after
the merge and the reference of the merged dict, or `none` where Python would
raise (missing `'oauth'` key, non-dict values). -/
def normalizeBuiltin (h : Heap) (defaultRef : Nat) (appVal : HVal) :
    Option (Heap × Nat) :=
  let a1 := heapAlloc h (heapGet h defaultRef)
  match dictGet (heapGet a1.1 a1.2) ("oauth") with
  | some (HVal.vref oRef) =>
      let a2 := heapAlloc a1.1 (heapGet a1.1 oRef)
      match appVal with
      | HVal.vref aRef =>
          let h3 := heapSet a2.1 a1.2
            (dictUpdate (heapGet a2.1 a1.2) (heapGet a2.1 aRef))
          match dictGet (heapGet h3 aRef) ("oauth") with
          | some (HVal.vref aoRef) =>
              let h4 := heapSet h3 a2.2
                (dictUpdate (heapGet h3 a2.2) (heapGet h3 aoRef))
              let h5 := heapSet h4 a1.2
                (dictSet (heapGet h4 a1.2) ("oauth") (HVal.vref a2.2))
              some (h5, a1.2)
          | _ => none
      | _ => none
  | _ => none

/-- The state threaded through `Social.init_app`'s provider scan
(lines 202-226): the object heap, the app's config mapping (`app.config`)
and the accumulated `provider_configs` list. -/
structure InitState where
  heap : Heap
  appConfig : Dict
  providerConfigs : List HVal
deriving DecidableEq, Repr

/-- One iteration of the scan loop of `Social.init_app` (lines 205-226) for a
single configuration key.  `builtins` is the built-in provider set
(`get_default_provider_names()`) and `defaultFor` maps a built-in provider id
to the heap reference of its compiled-in default config
(`flask_social.providers.<id>::default_config`); both live outside `core.py`
and are therefore parameters.  `none` models an uncaught exception (fatal
startup failure). -/
def processKey (builtins : List String) (defaultFor : String → Option Nat)
    (st : InitState) (key : String) : Option InitState :=
  if (pyStartswith key ("SOCIAL_") && !(defaultConfigKeys.contains key)) then
    if (!(builtins.contains (deriveProviderId key))) then
      -- custom provider: `provider_configs.append(app.config.get(key))`
      some { st with providerConfigs := st.providerConfigs ++
        [(dictGet st.appConfig key).getD HVal.vnone] }
    else
      match defaultFor (deriveProviderId key) with
      | some dRef =>
          match dictGet st.appConfig key with
          | some appVal =>
              match normalizeBuiltin st.heap dRef appVal with
              | some (h', dcRef) =>
                  -- `app.config[key] = d_config` and
                  -- `provider_configs.append(d_config)`
                  some { heap := h',
                         appConfig := dictSet st.appConfig key
                           (HVal.vref dcRef),
                         providerConfigs := st.providerConfigs
                           ++ [HVal.vref dcRef] }
              | none => none
          | none => none
      | none => none
  else
    some st

/-- The whole scan loop of `Social.init_app` over the configuration keys. -/
def scanConfig (builtins : List String) (defaultFor : String → Option Nat) :
    InitState → List String → Option InitState
  | st, [] => some st
  | st, k :: ks =>
      match processKey builtins defaultFor st k with
      | some st' => scanConfig builtins defaultFor st' ks
      | none => none

/-- A persisted connection record, with the eight attributes read by
`as_dict` inside `ConnectionFactory.get_connection` (lines 95-101). -/
structure Connection where
  user_id : String
  provider_id : String
  provider_user_id : String
  access_token : String
  secret : String
  display_name : String
  profile_url : String
  image_url : String
deriving DecidableEq, Repr

/-- The datastore collaborator consumed by `ConnectionFactory`
(`current_app.social.datastore`): both lookups either return a record or
raise `ConnectionNotFoundError`. -/
structure SocialDatastore where
  get_primary_connection : String → String → Except PyError Connection
  get_connection : String → String → String → Except PyError Connection

/-- The `ConnectionFactory` class (lines 52-110): a fixed `provider_id` plus
the `_create_api` hook, which concrete provider subclasses override. -/
structure ConnectionFactory (Api : Type) where
  provider_id : String
  create_api : Connection → Except PyError Api

/-- The base-class `_create_api` (lines 77-78): always raises
`NotImplementedError`. -/
def base_create_api (Api : Type) : Connection → Except PyError Api :=
  fun _ => Except.error PyError.notImplemented

/-- Values of the result mapping built by `get_connection`: the eight copied
string fields plus the `api` object. -/
inductive RVal (Api : Type) where
  | str (s : String)
  | api (a : Api)
deriving DecidableEq, Repr

/-- The branch structure of `ConnectionFactory.get_connection`
(lines 87-93): three `if` statements assign the local `connection`; the
combination (`user_id` absent, `provider_user_id` present) fires none of
them, so the later read of `connection` raises `UnboundLocalError`.
`currentUserId` models `current_user.get_id()`. -/
def resolveConnection (ds : SocialDatastore) (currentUserId : String)
    (provider_id : String) (user_id provider_user_id : Option String) :
    Except PyError Connection :=
  match user_id, provider_user_id with
  | none, none => ds.get_primary_connection currentUserId provider_id
  | some u, none => ds.get_primary_connection u provider_id
  | some u, some p => ds.get_connection u provider_id p
  | none, some _ => Except.error PyError.unboundLocal

/-- The nested `as_dict` helper (lines 95-101): copy the eight persisted
fields verbatim. -/
def as_dict {Api : Type} (c : Connection) : List (String × RVal Api) :=
  [("user_id", RVal.str c.user_id), ("provider_id", RVal.str c.provider_id),
   ("provider_user_id", RVal.str c.provider_user_id),
   ("access_token", RVal.str c.access_token), ("secret", RVal.str c.secret),
   ("display_name", RVal.str c.display_name),
   ("profile_url", RVal.str c.profile_url),
   ("image_url", RVal.str c.image_url)]

/-- `ConnectionFactory.get_connection` (lines 80-104): resolve a connection,
then build `dict(api=self._create_api(connection), **as_dict(connection))`,
whose keyword order puts `api` first followed by `as_dict`'s keys. -/
def ConnectionFactory.get_connection {Api : Type} (f : ConnectionFactory Api)
    (ds : SocialDatastore) (currentUserId : String)
    (user_id provider_user_id : Option String) :
    Except PyError (List (String × RVal Api)) :=
  match resolveConnection ds currentUserId f.provider_id user_id
      provider_user_id with
  | Except.error e => Except.error e
  | Except.ok c =>
      match f.create_api c with
      | Except.error e => Except.error e
      | Except.ok a => Except.ok (("api", RVal.api a) :: as_dict c)

/-- `ConnectionFactory.__call__` (lines 106-110): delegate to
`get_connection`, converting `ConnectionNotFoundError` to `None`; every other
exception propagates. -/
def ConnectionFactory.call {Api : Type} (f : ConnectionFactory Api)
    (ds : SocialDatastore) (currentUserId : String)
    (user_id provider_user_id : Option String) :
    Except PyError (Option (List (String × RVal Api))) :=
  match f.get_connection ds currentUserId user_id provider_user_id with
  | Except.error PyError.connectionNotFound => Except.ok none
  | Except.error e => Except.error e
  | Except.ok m => Except.ok (some m)

/-- A handler invocation either returns an HTTP redirect (`redirect(...)`) or
the value produced by the configured callback. -/
inductive FlowResult (α : Type) where
  | redirect (target : String)
  | value (a : α)
deriving DecidableEq, Repr

/-- Observable outcome of one `LoginHandler.__call__`: the debug trace
(display name and raw response, line 139), the flashed messages with their
category, the callback invocations `(provider_id, uid, response)` performed,
and the returned result. -/
structure LoginOutcome (Resp α : Type) where
  debug : List (String × Option Resp)
  flashes : List (String × String)
  callbackCalls : List (String × String × Resp)
  result : FlowResult α
deriving DecidableEq, Repr

/-- Observable outcome of one `ConnectHandler.__call__`: debug trace, flashed
messages, callback invocations `(connection_values, user_id)`, result. -/
structure ConnectOutcome (Resp CV α : Type) where
  debug : List (String × Option Resp)
  flashes : List (String × String)
  callbackCalls : List (CV × Option String)
  result : FlowResult α
deriving DecidableEq, Repr

/-- A `LoginHandler` (lines 122-150): `provider_id` and `callback` stored by
`OAuthHandler.__init__`, plus the `get_provider_user_id` extraction hook
(raises `NotImplementedError` unless overridden). -/
structure LoginHandler (Resp α : Type) where
  provider_id : String
  callback : String → String → Resp → α
  get_provider_user_id : Resp → Except PyError String

/-- A `ConnectHandler` (lines 153-179): `provider_id`, `callback`, and the
`get_connection_values` extraction hook. -/
structure ConnectHandler (Resp CV α : Type) where
  provider_id : String
  callback : CV → Option String → α
  get_connection_values : Resp → Except PyError CV

/-- `LoginHandler.__call__` (lines 136-150).  `getDisplayName` models the
external `get_display_name` helper and `loginView` the configured
`current_app.security.login_manager.login_view`. -/
def LoginHandler.call {Resp α : Type} (h : LoginHandler Resp α)
    (getDisplayName : String → String) (loginView : String)
    (response : Option Resp) : Except PyError (LoginOutcome Resp α) :=
  match response with
  | none => Except.ok
      { debug := [(getDisplayName h.provider_id, none)],
        flashes := [("Access was denied to your "
          ++ getDisplayName h.provider_id ++ " account", "error")],
        callbackCalls := [],
        result := FlowResult.redirect loginView }
  | some r =>
      match h.get_provider_user_id r with
      | Except.error e => Except.error e
      | Except.ok uid => Except.ok
          { debug := [(getDisplayName h.provider_id, some r)],
            flashes := [],
            callbackCalls := [(h.provider_id, uid, r)],
            result := FlowResult.value (h.callback h.provider_id uid r) }

/-- `ConnectHandler.__call__` (lines 167-179).  `connectDenyRedirect` models
`config_value('CONNECT_DENY_REDIRECT')`. -/
def ConnectHandler.call {Resp CV α : Type} (h : ConnectHandler Resp CV α)
    (getDisplayName : String → String) (connectDenyRedirect : String)
    (response : Option Resp) (user_id : Option String) :
    Except PyError (ConnectOutcome Resp CV α) :=
  match response with
  | none => Except.ok
      { debug := [(getDisplayName h.provider_id, none)],
        flashes := [("Access was denied by "
          ++ getDisplayName h.provider_id, "error")],
        callbackCalls := [],
        result := FlowResult.redirect connectDenyRedirect }
  | some r =>
      match h.get_connection_values r with
      | Except.error e => Except.error e
      | Except.ok cv => Except.ok
          { debug := [(getDisplayName h.provider_id, some r)],
            flashes := [],
            callbackCalls := [(cv, user_id)],
            result := FlowResult.value (h.callback cv user_id) }

/-- `Social.register_provider` (lines 246-247): plain upsert into the
provider map. -/
def register_provider {PV : Type} (providers : List (String × PV))
    (name : String) (p : PV) : List (String × PV) :=
  dictSet providers name p

/-- `Social.__getattr__` (lines 249-250): `self.providers.get(name, None)`.
Total by construction — the model of the lenient lookup never fails. -/
def social_getattr {PV : Type} (providers : List (String × PV))
    (name : String) : Option PV :=
  dictGet providers name

/- Concrete fixtures used by the witness theorems below. -/

/-- Fixture: a built-in provider's compiled-in default config (its `oauth`
sub-dict lives at heap reference 2). -/
def ddW : Dict := [("oauth", HVal.vref 2)]

/-- Fixture: the app-supplied config for the provider key (its `oauth`
sub-dict lives at heap reference 3). -/
def adW : Dict := [("consumer_key", HVal.vstr "X"), ("oauth", HVal.vref 3)]

/-- Fixture: the default `oauth` sub-dict. -/
def odW : Dict :=
  [("request_token_url", HVal.vstr "default_url"),
   ("access_token_url", HVal.vstr "default_access")]

/-- Fixture: the app-supplied `oauth` sub-dict. -/
def aoW : Dict := [("request_token_url", HVal.vstr "custom")]

/-- Fixture: initial state whose heap holds the four dicts above and whose
app config binds the twitter provider key to the app dict. -/
def stW : InitState :=
  { heap := [ddW, adW, odW, aoW],
    appConfig := [("SOCIAL_TWITTER", HVal.vref 1)],
    providerConfigs := [] }

/-- Fixture: the compiled-in default config registry (twitter at ref 0). -/
def dfW : String → Option Nat :=
  fun p => if p = "twitter" then some 0 else none

/-- Fixture: the state computed by scanning `stW` (checked by `rfl`). -/
def stWafter : InitState :=
  { heap := [ddW, adW, odW, aoW,
      [("oauth", HVal.vref 5), ("consumer_key", HVal.vstr "X")],
      [("request_token_url", HVal.vstr "custom"),
       ("access_token_url", HVal.vstr "default_access")]],
    appConfig := [("SOCIAL_TWITTER", HVal.vref 4)],
    providerConfigs := [HVal.vref 4] }

/-- Fixture: a state for the custom-provider pass-through witness. -/
def stCW : InitState :=
  { heap := [],
    appConfig := [("SOCIAL_MYSVC", HVal.vstr "rawcfg")],
    providerConfigs := [] }

/-- Fixture: a fully populated connection record. -/
def cW : Connection :=
  { user_id := "u1", provider_id := "twitter", provider_user_id := "pu1",
    access_token := "tok", secret := "sec", display_name := "dn",
    profile_url := "purl", image_url := "iurl" }

/-- Fixture: a datastore in which every lookup succeeds with `cW`. -/
def dsW : SocialDatastore :=
  { get_primary_connection := fun _ _ => Except.ok cW,
    get_connection := fun _ _ _ => Except.ok cW }

/-- Fixture: a datastore in which every lookup raises
`ConnectionNotFoundError`. -/
def dsN : SocialDatastore :=
  { get_primary_connection :=
      fun _ _ => Except.error PyError.connectionNotFound,
    get_connection := fun _ _ _ => Except.error PyError.connectionNotFound }

/-- Fixture: a concrete connection factory whose `_create_api` succeeds. -/
def fW : ConnectionFactory String :=
  { provider_id := "twitter", create_api := fun _ => Except.ok "api-client" }

/-- Fixture: a concrete connect handler over dictionary-shaped responses. -/
def chW : ConnectHandler (List (String × String)) (List (String × String))
    (List (String × String) × Option String) :=
  { provider_id := "twitter",
    callback := fun cv u => (cv, u),
    get_connection_values := fun r => Except.ok r }

/- ------------------------------------------------------------------ -/
/- Lemmas about the dict and heap primitives.                          -/
/- ------------------------------------------------------------------ -/

theorem dictGet_dictSet {V : Type} (d : List (String × V)) (k : String) (v : V)
    (k' : String) :
    dictGet (dictSet d k v) k' = if k' = k then some v else dictGet d k' := by
  induction d with
  | nil =>
      by_cases h : k' = k
      · subst h
        simp [dictSet, dictGet]
      · have h2 : ¬ (k = k') := fun hh => h hh.symm
        simp [dictSet, dictGet, h, h2]
  | cons p d ih =>
      obtain ⟨k1, v1⟩ := p
      by_cases h1 : k1 = k
      · subst h1
        by_cases h2 : k' = k1
        · subst h2
          simp [dictSet, dictGet]
        · have h3 : ¬ (k1 = k') := fun hh => h2 hh.symm
          simp [dictSet, dictGet, h2, h3]
      · by_cases h2 : k1 = k'
        · subst h2
          have h3 : ¬ (k1 = k) := h1
          simp [dictSet, dictGet, h1, h3]
        · simp [dictSet, dictGet, h1, h2, ih]

theorem dictGet_append {V : Type} (d1 d2 : List (String × V)) (k : String) :
    dictGet (d1 ++ d2) k = orElseO (dictGet d1 k) (dictGet d2 k) := by
  induction d1 with
  | nil => simp [dictGet, orElseO]
  | cons p d ih =>
      obtain ⟨k1, v1⟩ := p
      by_cases h : k1 = k
      · simp [dictGet, h, orElseO]
      · simp [dictGet, h, ih]

theorem dictGet_overrideMap {V : Type} (d a : List (String × V)) (k : String) :
    dictGet (d.map (fun p => match dictGet a p.1 with
      | some v => (p.1, v)
      | none => p)) k
      = match dictGet d k with
        | some v => some ((dictGet a k).getD v)
        | none => none := by
  induction d with
  | nil => simp [dictGet]
  | cons p d ih =>
      obtain ⟨k1, v1⟩ := p
      by_cases h : k1 = k
      · subst h
        cases hv : dictGet a k1 <;> simp [dictGet, hv]
      · cases hv : dictGet a k1 <;> simp [dictGet, h, hv, ih]

theorem dictGet_filterNew {V : Type} (d a : List (String × V)) (k : String) :
    dictGet (a.filter (fun p => (dictGet d p.1).isNone)) k
      = if (dictGet d k).isNone then dictGet a k else none := by
  induction a with
  | nil => simp [dictGet]
  | cons p a ih =>
      obtain ⟨k1, v1⟩ := p
      rw [List.filter_cons]
      by_cases hk : k1 = k
      · subst hk
        cases hd : dictGet d k1 <;> simp [dictGet, hd, ih]
      · cases hd : dictGet d k1 <;> simp [dictGet, hd, hk, ih]

/-- Lookup in a merged dict: the overriding value when present, the base
value otherwise.  This is the observable content of `d.update(a)`. -/
theorem dictGet_dictUpdate {V : Type} (d a : List (String × V)) (k : String) :
    dictGet (dictUpdate d a) k = orElseO (dictGet a k) (dictGet d k) := by
  rw [dictUpdate, dictGet_append, dictGet_overrideMap, dictGet_filterNew]
  cases hd : dictGet d k <;> cases ha : dictGet a k <;>
    simp [orElseO, Option.getD, hd, ha]

theorem dictGet_eq_none_of_not_mem {V : Type} (d : List (String × V))
    (k : String) (h : ∀ p ∈ d, p.1 ≠ k) : dictGet d k = none := by
  induction d with
  | nil => rfl
  | cons p d ih =>
      obtain ⟨k1, v1⟩ := p
      have hk : k1 ≠ k := h (k1, v1) (List.mem_cons_self _ _)
      simp [dictGet, hk]
      exact ih fun q hq => h q (List.mem_cons_of_mem _ hq)

theorem length_heapSet (h : Heap) (r : Nat) (d : Dict) :
    (heapSet h r d).length = h.length := by
  induction h generalizing r with
  | nil => rfl
  | cons d0 h ih =>
      cases r with
      | zero => rfl
      | succ r => simp [heapSet, ih]

theorem heapGet_append_lt (h l : Heap) (r : Nat) (hr : r < h.length) :
    heapGet (h ++ l) r = heapGet h r := by
  induction h generalizing r with
  | nil => exact absurd hr (Nat.not_lt_zero r)
  | cons d0 h ih =>
      cases r with
      | zero => rfl
      | succ r =>
          simp only [List.cons_append, heapGet]
          exact ih r (Nat.lt_of_succ_lt_succ hr)

theorem heapGet_append_len (h : Heap) (d : Dict) :
    heapGet (h ++ [d]) h.length = d := by
  induction h with
  | nil => rfl
  | cons d0 h ih => simpa [heapGet] using ih

theorem heapGet_heapSet_eq (h : Heap) (r : Nat) (d : Dict)
    (hr : r < h.length) : heapGet (heapSet h r d) r = d := by
  induction h generalizing r with
  | nil => exact absurd hr (Nat.not_lt_zero r)
  | cons d0 h ih =>
      cases r with
      | zero => rfl
      | succ r =>
          simp only [heapSet, heapGet]
          exact ih r (Nat.lt_of_succ_lt_succ hr)

theorem heapGet_heapSet_ne (h : Heap) (r s : Nat) (d : Dict) (hne : r ≠ s) :
    heapGet (heapSet h r d) s = heapGet h s := by
  induction h generalizing r s with
  | nil => rfl
  | cons d0 h ih =>
      cases r with
      | zero =>
          cases s with
          | zero => exact absurd rfl hne
          | succ s => rfl
      | succ r =>
          cases s with
          | zero => rfl
          | succ s =>
              simp only [heapSet, heapGet]
              exact ih r s (fun hh => hne (by rw [hh]))

/- ------------------------------------------------------------------ -/
/- Lemmas about `normalizeBuiltin` and the scan loop.                  -/
/- ------------------------------------------------------------------ -/

/-- Full computation of `normalizeBuiltin` on a well-formed heap: the copies
land at references `h.length` (top-level) and `h.length + 1` (oauth), the
merges are `dictUpdate`, and the merged top-level dict's `'oauth'` key is
redirected to the merged oauth dict. -/
theorem normalizeBuiltin_spec (h : Heap) (dRef aRef oRef aoRef : Nat)
    (hd : dRef < h.length) (ho : oRef < h.length) (ha : aRef < h.length)
    (hao : aoRef < h.length)
    (hdo : dictGet (heapGet h dRef) ("oauth") = some (HVal.vref oRef))
    (haoh : dictGet (heapGet h aRef) ("oauth") = some (HVal.vref aoRef)) :
    normalizeBuiltin h dRef (HVal.vref aRef) =
      some (heapSet (heapSet (heapSet (h ++ [heapGet h dRef] ++ [heapGet h oRef])
          h.length (dictUpdate (heapGet h dRef) (heapGet h aRef)))
          (h.length + 1) (dictUpdate (heapGet h oRef) (heapGet h aoRef)))
          h.length (dictSet (dictUpdate (heapGet h dRef) (heapGet h aRef)) ("oauth")
            (HVal.vref (h.length + 1))),
        h.length) := by
  have hlen1 : (h ++ [heapGet h dRef]).length = h.length + 1 := by simp
  have e1 : heapGet (h ++ [heapGet h dRef]) h.length = heapGet h dRef :=
    heapGet_append_len h _
  have e2 : heapGet (h ++ [heapGet h dRef]) oRef = heapGet h oRef :=
    heapGet_append_lt _ _ _ ho
  have e3 : heapGet (h ++ [heapGet h dRef] ++ [heapGet h oRef]) h.length
      = heapGet h dRef := by
    rw [heapGet_append_lt _ _ _ (by simp), e1]
  have e4 : heapGet (h ++ [heapGet h dRef] ++ [heapGet h oRef]) aRef
      = heapGet h aRef := by
    rw [heapGet_append_lt _ _ _ (by simp; omega), heapGet_append_lt _ _ _ ha]
  have e5 : heapGet (heapSet (h ++ [heapGet h dRef] ++ [heapGet h oRef])
      h.length (dictUpdate (heapGet h dRef) (heapGet h aRef))) aRef
      = heapGet h aRef := by
    rw [heapGet_heapSet_ne _ _ _ _ (Nat.ne_of_gt ha), e4]
  have e6 : heapGet (heapSet (h ++ [heapGet h dRef] ++ [heapGet h oRef])
      h.length (dictUpdate (heapGet h dRef) (heapGet h aRef))) (h.length + 1)
      = heapGet h oRef := by
    rw [heapGet_heapSet_ne _ _ _ _ (by omega)]
    have := heapGet_append_len (h ++ [heapGet h dRef]) (heapGet h oRef)
    rwa [hlen1] at this
  have e7 : heapGet (heapSet (h ++ [heapGet h dRef] ++ [heapGet h oRef])
      h.length (dictUpdate (heapGet h dRef) (heapGet h aRef))) aoRef
      = heapGet h aoRef := by
    rw [heapGet_heapSet_ne _ _ _ _ (Nat.ne_of_gt hao),
        heapGet_append_lt _ _ _ (by simp; omega), heapGet_append_lt _ _ _ hao]
  have e8 : heapGet (heapSet (heapSet (h ++ [heapGet h dRef] ++ [heapGet h oRef])
      h.length (dictUpdate (heapGet h dRef) (heapGet h aRef)))
      (h.length + 1) (dictUpdate (heapGet h oRef) (heapGet h aoRef))) h.length
      = dictUpdate (heapGet h dRef) (heapGet h aRef) := by
    rw [heapGet_heapSet_ne _ _ _ _ (by omega)]
    exact heapGet_heapSet_eq _ _ _ (by simp)
  simp only [normalizeBuiltin, heapAlloc, e1, hdo, e2, hlen1, e3, e4, e5, haoh,
    e6, e7, e8]

/-- A successful `normalizeBuiltin` only allocates fresh objects and mutates
those: every pre-existing heap object is untouched. -/
theorem normalizeBuiltin_frame (h : Heap) (dRef : Nat) (appVal : HVal)
    (h' : Heap) (r : Nat)
    (hsucc : normalizeBuiltin h dRef appVal = some (h', r))
    (s : Nat) (hs : s < h.length) :
    heapGet h' s = heapGet h s ∧ h.length ≤ h'.length := by
  simp only [normalizeBuiltin, heapAlloc] at hsucc
  split at hsucc
  case _ oRef heq =>
    split at hsucc
    case _ aRef =>
      split at hsucc
      case _ aoRef heq2 =>
        injection hsucc with h1
        obtain ⟨h2, h3⟩ := Prod.mk.inj h1
        subst h2
        constructor
        · rw [heapGet_heapSet_ne _ _ _ _ (by omega),
              heapGet_heapSet_ne _ _ _ _ (by simp; omega),
              heapGet_heapSet_ne _ _ _ _ (by omega),
              heapGet_append_lt _ _ _ (by simp; omega),
              heapGet_append_lt _ _ _ hs]
        · rw [length_heapSet, length_heapSet, length_heapSet]
          simp
      case _ => exact absurd hsucc (by simp)
    case _ => exact absurd hsucc (by simp)
  case _ => exact absurd hsucc (by simp)

/-- One successful scan step leaves every pre-existing heap object
untouched. -/
theorem processKey_frame (builtins : List String)
    (defaultFor : String → Option Nat) (st : InitState) (key : String)
    (st' : InitState) (hsucc : processKey builtins defaultFor st key = some st')
    (s : Nat) (hs : s < st.heap.length) :
    heapGet st'.heap s = heapGet st.heap s ∧
      st.heap.length ≤ st'.heap.length := by
  simp only [processKey] at hsucc
  split at hsucc
  · split at hsucc
    · injection hsucc with h1
      subst h1
      exact ⟨rfl, Nat.le_refl _⟩
    · split at hsucc
      case _ dRef hdf =>
        split at hsucc
        case _ appVal happ =>
          split at hsucc
          case _ h' dcRef hnorm =>
            injection hsucc with h1
            subst h1
            exact normalizeBuiltin_frame st.heap dRef appVal h' dcRef hnorm s hs
          case _ => exact absurd hsucc (by simp)
        case _ => exact absurd hsucc (by simp)
      case _ => exact absurd hsucc (by simp)
  · injection hsucc with h1
    subst h1
    exact ⟨rfl, Nat.le_refl _⟩

/-- A successful whole-config scan leaves every pre-existing heap object
untouched. -/
theorem scanConfig_frame (builtins : List String)
    (defaultFor : String → Option Nat) (keys : List String)
    (st st' : InitState)
    (hsucc : scanConfig builtins defaultFor st keys = some st')
    (s : Nat) (hs : s < st.heap.length) :
    heapGet st'.heap s = heapGet st.heap s ∧
      st.heap.length ≤ st'.heap.length := by
  induction keys generalizing st with
  | nil =>
      simp only [scanConfig] at hsucc
      injection hsucc with h1
      subst h1
      exact ⟨rfl, Nat.le_refl _⟩
  | cons k ks ih =>
      simp only [scanConfig] at hsucc
      split at hsucc
      case _ st1 hstep =>
        obtain ⟨hg1, hl1⟩ := processKey_frame builtins defaultFor st k st1
          hstep s hs
        obtain ⟨hg2, hl2⟩ := ih st1 hsucc (Nat.lt_of_lt_of_le hs hl1)
        exact ⟨hg2.trans hg1, Nat.le_trans hl1 hl2⟩
      case _ => exact absurd hsucc (by simp)

/- ------------------------------------------------------------------ -/
/- Lemmas about `replaceFuel`.                                         -/
/- ------------------------------------------------------------------ -/

theorem replaceFuel_no_occur (pat rep : List Char) (s : List Char)
    (hno : hasOccurL pat s = false) :
    ∀ fuel, replaceFuel pat rep fuel s = s := by
  induction s with
  | nil => intro fuel; cases fuel <;> rfl
  | cons c s ih =>
      intro fuel
      cases fuel with
      | zero => rfl
      | succ f =>
          simp only [hasOccurL, Bool.or_eq_false_iff] at hno
          simp only [replaceFuel, hno.1, Bool.and_false, if_false]
          exact congrArg (c :: ·) (ih hno.2 f)

theorem replaceFuel_strip (pat rep rest : List Char) (hp : pat ≠ [])
    (hno : hasOccurL pat rest = false) :
    replaceFuel pat rep ((pat ++ rest).length) (pat ++ rest) = rep ++ rest := by
  cases pat with
  | nil => exact absurd rfl hp
  | cons p pt =>
      have hpre : (p :: pt).isPrefixOf (p :: (pt ++ rest)) = true := by
        rw [List.isPrefixOf_iff_prefix]
        exact List.prefix_append _ _
      have hdrop : List.drop (pt.length + 1) (p :: (pt ++ rest)) = rest := by
        simp only [List.drop_succ_cons]
        exact List.drop_left pt rest
      simp only [List.cons_append, List.length_cons, List.length_append,
        replaceFuel, List.append_eq, hpre, List.isEmpty_cons, Bool.not_false,
        Bool.true_and, if_true, hdrop]
      rw [replaceFuel_no_occur _ _ _ hno]

/- ------------------------------------------------------------------ -/
/- Claim theorems.                                                     -/
/- ------------------------------------------------------------------ -/

/-- C1: for every built-in provider key, `Social.init_app` deep-merges the
app-supplied config over the compiled-in defaults: the merged config is
written back to `app.config[key]` (a fresh object at reference
`st.heap.length`), its `'oauth'` key points at the fresh merged oauth dict
(reference `st.heap.length + 1`); every top-level key other than `'oauth'`
resolves to the app's value when the app supplied one and to the default
otherwise, and every oauth key resolves to the app's oauth value when
supplied and to the default oauth value otherwise (merge, not replace). -/
theorem social_builtin_config_deep_merge
    (builtins : List String) (defaultFor : String → Option Nat)
    (st : InitState) (key : String) (dRef aRef oRef aoRef : Nat)
    (hstart : pyStartswith key ("SOCIAL_") = true)
    (hnotglobal : defaultConfigKeys.contains key = false)
    (hbuiltin : builtins.contains (deriveProviderId key) = true)
    (hdf : defaultFor (deriveProviderId key) = some dRef)
    (happ : dictGet st.appConfig key = some (HVal.vref aRef))
    (hdl : dRef < st.heap.length) (hol : oRef < st.heap.length)
    (hal : aRef < st.heap.length) (haol : aoRef < st.heap.length)
    (hdo : dictGet (heapGet st.heap dRef) ("oauth") = some (HVal.vref oRef))
    (haoh : dictGet (heapGet st.heap aRef) ("oauth") = some (HVal.vref aoRef)) :
    ∃ st' : InitState,
      processKey builtins defaultFor st key = some st' ∧
      dictGet st'.appConfig key = some (HVal.vref st.heap.length) ∧
      dictGet (heapGet st'.heap st.heap.length) ("oauth")
        = some (HVal.vref (st.heap.length + 1)) ∧
      (∀ k, k ≠ "oauth" →
        dictGet (heapGet st'.heap st.heap.length) k
          = orElseO (dictGet (heapGet st.heap aRef) k)
              (dictGet (heapGet st.heap dRef) k)) ∧
      (∀ k, dictGet (heapGet st'.heap (st.heap.length + 1)) k
          = orElseO (dictGet (heapGet st.heap aoRef) k)
              (dictGet (heapGet st.heap oRef) k)) := by
  have hnorm := normalizeBuiltin_spec st.heap dRef aRef oRef aoRef hdl hol hal
    haol hdo haoh
  have hlen2 : (heapSet (heapSet
      (st.heap ++ [heapGet st.heap dRef] ++ [heapGet st.heap oRef])
      st.heap.length (dictUpdate (heapGet st.heap dRef) (heapGet st.heap aRef)))
      (st.heap.length + 1)
      (dictUpdate (heapGet st.heap oRef) (heapGet st.heap aoRef))).length
      = st.heap.length + 2 := by
    rw [length_heapSet, length_heapSet]
    simp
  have hpk : processKey builtins defaultFor st key = some
      { heap := heapSet (heapSet (heapSet
          (st.heap ++ [heapGet st.heap dRef] ++ [heapGet st.heap oRef])
          st.heap.length
          (dictUpdate (heapGet st.heap dRef) (heapGet st.heap aRef)))
          (st.heap.length + 1)
          (dictUpdate (heapGet st.heap oRef) (heapGet st.heap aoRef)))
          st.heap.length
          (dictSet (dictUpdate (heapGet st.heap dRef) (heapGet st.heap aRef))
            ("oauth") (HVal.vref (st.heap.length + 1))),
        appConfig := dictSet st.appConfig key (HVal.vref st.heap.length),
        providerConfigs := st.providerConfigs
          ++ [HVal.vref st.heap.length] } := by
    simp only [processKey, hstart, hnotglobal, hbuiltin, hdf, happ, hnorm]
    simp
  refine ⟨_, hpk, ?_, ?_, ?_, ?_⟩
  · dsimp only
    rw [dictGet_dictSet]
    simp
  · dsimp only
    rw [heapGet_heapSet_eq _ _ _ (by rw [hlen2]; omega), dictGet_dictSet]
    simp
  · intro k hk
    dsimp only
    rw [heapGet_heapSet_eq _ _ _ (by rw [hlen2]; omega), dictGet_dictSet,
        if_neg hk, dictGet_dictUpdate]
  · intro k
    dsimp only
    rw [heapGet_heapSet_ne _ _ _ _ (by omega),
        heapGet_heapSet_eq _ _ _ (by rw [length_heapSet]; simp),
        dictGet_dictUpdate]

/-- C1 (witness): the claim's own scenario.  App config
`{'consumer_key': 'X', 'oauth': {'request_token_url': 'custom'}}` merged over
defaults whose oauth dict is
`{'request_token_url': 'default_url', 'access_token_url': 'default_access'}`
yields the normalized oauth mapping
`{'request_token_url': 'custom', 'access_token_url': 'default_access'}`. -/
theorem social_builtin_config_deep_merge_witness :
    (∃ st' : InitState,
      processKey ["twitter"] dfW stW ("SOCIAL_TWITTER") = some st' ∧
      dictGet st'.appConfig ("SOCIAL_TWITTER") = some (HVal.vref 4) ∧
      dictGet (heapGet st'.heap 4) ("oauth") = some (HVal.vref 5) ∧
      (∀ k, k ≠ "oauth" →
        dictGet (heapGet st'.heap 4) k
          = orElseO (dictGet (heapGet stW.heap 1) k)
              (dictGet (heapGet stW.heap 0) k)) ∧
      (∀ k, dictGet (heapGet st'.heap 5) k
          = orElseO (dictGet (heapGet stW.heap 3) k)
              (dictGet (heapGet stW.heap 2) k))) ∧
    heapGet ((processKey ["twitter"] dfW stW ("SOCIAL_TWITTER")).getD stW).heap 5
      = [("request_token_url", HVal.vstr "custom"),
         ("access_token_url", HVal.vstr "default_access")] :=
  ⟨social_builtin_config_deep_merge ["twitter"] dfW stW ("SOCIAL_TWITTER")
      0 1 2 3 (by decide) (by decide) (by decide) (by decide) rfl
      (by decide) (by decide) (by decide) (by decide) rfl rfl,
   rfl⟩

/-- C2: `ConnectionFactory.__call__` never raises
`ConnectionNotFoundError`; it returns `None` exactly when the underlying
`get_connection` raises `ConnectionNotFoundError`, and when `get_connection`
returns a mapping, `__call__` returns the identical mapping. -/
theorem connection_factory_call_swallows_not_found {Api : Type}
    (f : ConnectionFactory Api) (ds : SocialDatastore) (cu : String)
    (user_id provider_user_id : Option String) :
    (∀ e, f.call ds cu user_id provider_user_id = Except.error e →
      e ≠ PyError.connectionNotFound) ∧
    (f.call ds cu user_id provider_user_id = Except.ok none ↔
      f.get_connection ds cu user_id provider_user_id
        = Except.error PyError.connectionNotFound) ∧
    (∀ m, f.get_connection ds cu user_id provider_user_id = Except.ok m →
      f.call ds cu user_id provider_user_id = Except.ok (some m)) := by
  cases hgc : f.get_connection ds cu user_id provider_user_id with
  | error e => cases e <;> simp [ConnectionFactory.call, hgc]
  | ok m => simp [ConnectionFactory.call, hgc]

/-- C2 (witness): a datastore that raises `ConnectionNotFoundError` makes the
callable form return `None`; a datastore that resolves `cW` makes it return
the very mapping `get_connection` builds. -/
theorem connection_factory_call_swallows_not_found_witness :
    ConnectionFactory.call fW dsN ("u") none none = Except.ok none ∧
    ConnectionFactory.call fW dsW ("u") none none = Except.ok (some
      [("api", RVal.api "api-client"), ("user_id", RVal.str "u1"),
       ("provider_id", RVal.str "twitter"),
       ("provider_user_id", RVal.str "pu1"),
       ("access_token", RVal.str "tok"), ("secret", RVal.str "sec"),
       ("display_name", RVal.str "dn"), ("profile_url", RVal.str "purl"),
       ("image_url", RVal.str "iurl")]) :=
  ⟨(connection_factory_call_swallows_not_found fW dsN ("u") none
      none).2.1.mpr rfl,
   (connection_factory_call_swallows_not_found fW dsW ("u") none
      none).2.2 _ rfl⟩

/-- C3: with `user_id` absent and `provider_user_id` present, none of the
three resolution branches of `ConnectionFactory.get_connection` assigns the
local `connection`, so the subsequent use of it raises `UnboundLocalError`
(the combination is unhandled rather than rejected with a clear error); the
error propagates out of `get_connection` for any datastore, any current user
and any factory. -/
theorem resolve_connection_unbound_local {Api : Type}
    (f : ConnectionFactory Api) (ds : SocialDatastore) (cu : String)
    (p : String) :
    resolveConnection ds cu f.provider_id none (some p)
      = Except.error PyError.unboundLocal ∧
    f.get_connection ds cu none (some p)
      = Except.error PyError.unboundLocal :=
  ⟨rfl, rfl⟩

/-- C4: for every configuration key with the `SOCIAL_` prefix whose derived
provider id is not a built-in provider, the scan step appends the
app-supplied config value itself to `provider_configs` and changes nothing
else: the heap (hence every config object) and the app config are returned
unchanged — no default keys injected, no merge performed. -/
theorem custom_provider_config_passthrough
    (builtins : List String) (defaultFor : String → Option Nat)
    (st : InitState) (key : String) (v : HVal)
    (hstart : pyStartswith key ("SOCIAL_") = true)
    (hnotglobal : defaultConfigKeys.contains key = false)
    (hcustom : builtins.contains (deriveProviderId key) = false)
    (happ : dictGet st.appConfig key = some v) :
    processKey builtins defaultFor st key = some
      { heap := st.heap, appConfig := st.appConfig,
        providerConfigs := st.providerConfigs ++ [v] } := by
  simp only [processKey, hstart, hnotglobal, hcustom, happ]
  simp

/-- C4 (witness): a custom provider key `SOCIAL_MYSVC` is passed through
unchanged. -/
theorem custom_provider_config_passthrough_witness :
    processKey ["twitter"] dfW stCW ("SOCIAL_MYSVC") = some
      { heap := ([] : Heap),
        appConfig := [("SOCIAL_MYSVC", HVal.vstr "rawcfg")],
        providerConfigs := [HVal.vstr "rawcfg"] } :=
  custom_provider_config_passthrough ["twitter"] dfW stCW ("SOCIAL_MYSVC")
    (HVal.vstr "rawcfg") (by decide) (by decide) (by decide) rfl

/-- C5 (counterexample): the claim says the derived provider id equals the
key with only the *leading* `SOCIAL_` prefix removed, lowercased
(`stripLeadingLower`).  Line 207 uses `str.replace`, which removes *every*
occurrence: on the key `SOCIAL_SOCIAL_FOO` (which starts with the prefix and
is not a global default key) the code derives `foo`, while the claim
predicts `social_foo`. -/
theorem derive_provider_id_counterexample :
    pyStartswith ("SOCIAL_SOCIAL_FOO") ("SOCIAL_") = true ∧
    defaultConfigKeys.contains ("SOCIAL_SOCIAL_FOO") = false ∧
    deriveProviderId ("SOCIAL_SOCIAL_FOO") = "foo" ∧
    stripLeadingLower ("SOCIAL_SOCIAL_FOO") = "social_foo" ∧
    deriveProviderId ("SOCIAL_SOCIAL_FOO")
      ≠ stripLeadingLower ("SOCIAL_SOCIAL_FOO") := by decide

/-- C5 (amended): the derived provider id equals the key with every
occurrence of `SOCIAL_` removed, lowercased; in particular, whenever the
remainder after the leading prefix contains no further occurrence of
`SOCIAL_`, this coincides with the claim's reading — strip only the leading
prefix and lowercase. -/
theorem derive_provider_id_leading_strip (rest : List Char)
    (hno : hasOccurL (("SOCIAL_").data) rest = false) :
    deriveProviderId (String.mk ((("SOCIAL_").data) ++ rest))
      = stripLeadingLower (String.mk ((("SOCIAL_").data) ++ rest)) ∧
    pyStartswith (String.mk ((("SOCIAL_").data) ++ rest)) ("SOCIAL_")
      = true := by
  constructor
  · show pyLower (String.mk (replaceFuel (("SOCIAL_").data) ([] : List Char)
        (((("SOCIAL_").data) ++ rest).length) ((("SOCIAL_").data) ++ rest)))
      = pyLower (String.mk (((("SOCIAL_").data) ++ rest).drop
          ((("SOCIAL_").data).length)))
    rw [replaceFuel_strip _ _ _ (by decide) hno, List.drop_left,
        List.nil_append]
  · show (("SOCIAL_").data).isPrefixOf ((("SOCIAL_").data) ++ rest) = true
    rw [List.isPrefixOf_iff_prefix]
    exact List.prefix_append _ _

/-- C5 (witness): for `SOCIAL_TWITTER` the remainder `TWITTER` contains no
further occurrence of the prefix, so both readings agree. -/
theorem derive_provider_id_leading_strip_witness :
    hasOccurL (("SOCIAL_").data) (("TWITTER").data) = false ∧
    (deriveProviderId (String.mk ((("SOCIAL_").data) ++ (("TWITTER").data)))
        = stripLeadingLower
            (String.mk ((("SOCIAL_").data) ++ (("TWITTER").data))) ∧
      pyStartswith (String.mk ((("SOCIAL_").data) ++ (("TWITTER").data)))
        ("SOCIAL_") = true) :=
  ⟨by decide, derive_provider_id_leading_strip (("TWITTER").data) (by decide)⟩

/-- C6: attribute-style provider lookup on the `Social` registry
(`Social.__getattr__`, a total `providers.get(name, None)`) returns `None`
for every name that has not been registered as a provider — it never
raises. -/
theorem social_getattr_unknown_returns_none {PV : Type}
    (providers : List (String × PV)) (name : String)
    (h : ∀ p ∈ providers, p.1 ≠ name) :
    social_getattr providers name = none :=
  dictGet_eq_none_of_not_mem providers name h

/-- C6 (witness): looking up `facebook` in a registry holding only
`twitter` yields `None`. -/
theorem social_getattr_unknown_returns_none_witness :
    social_getattr [(("twitter" : String), (1 : Nat))] ("facebook")
      = none :=
  social_getattr_unknown_returns_none _ _ (by decide)

/-- C7: a `LoginHandler` invoked with `response = None` flashes an
access-denied notice naming the provider at level `error`, returns a
redirect to the configured login view, and performs no callback invocation
(the outcome is the same for every configured callback). -/
theorem login_handler_denied_redirects_without_callback {Resp α : Type}
    (h : LoginHandler Resp α) (getDisplayName : String → String)
    (loginView : String) :
    h.call getDisplayName loginView none = Except.ok
      { debug := [(getDisplayName h.provider_id, none)],
        flashes := [("Access was denied to your "
          ++ getDisplayName h.provider_id ++ " account", "error")],
        callbackCalls := [],
        result := FlowResult.redirect loginView } := rfl

/-- C8: a `ConnectHandler` invoked with a non-`None` response and
`user_id = None` invokes `get_connection_values` on the response, passes its
result together with `None` to the configured callback, and returns the
callback's return value unchanged. -/
theorem connect_handler_passes_values_to_callback {Resp CV α : Type}
    (h : ConnectHandler Resp CV α) (getDisplayName : String → String)
    (connectDenyRedirect : String) (r : Resp) (cv : CV)
    (hcv : h.get_connection_values r = Except.ok cv) :
    h.call getDisplayName connectDenyRedirect (some r) none = Except.ok
      { debug := [(getDisplayName h.provider_id, some r)],
        flashes := [],
        callbackCalls := [(cv, none)],
        result := FlowResult.value (h.callback cv none) } := by
  simp [ConnectHandler.call, hcv]

/-- C8 (witness): the claim's scenario — response `{'uid': '123'}` and
`user_id = None`; the extracted values and `None` reach the callback and its
return value is returned unchanged. -/
theorem connect_handler_passes_values_to_callback_witness :
    chW.call (fun p => p) ("/profile") (some [("uid", "123")]) none
      = Except.ok
        { debug := [("twitter", some [("uid", "123")])],
          flashes := [],
          callbackCalls := [([("uid", "123")], none)],
          result := FlowResult.value ([("uid", "123")], none) } :=
  connect_handler_passes_values_to_callback chW (fun p => p) ("/profile")
    ([("uid", "123")]) ([("uid", "123")]) rfl

/-- C9: whenever `get_connection` resolves a connection record, its result
is the mapping holding exactly the key `api` (the value produced by
`_create_api` on the resolved record) followed by the eight persisted fields
copied verbatim; with the base `_create_api` (not overridden) the call
instead fails with the NotImplemented error. -/
theorem get_connection_result_exact_fields {Api : Type}
    (f : ConnectionFactory Api) (ds : SocialDatastore) (cu : String)
    (user_id provider_user_id : Option String) (c : Connection)
    (hres : resolveConnection ds cu f.provider_id user_id provider_user_id
      = Except.ok c) :
    (∀ a, f.create_api c = Except.ok a →
      f.get_connection ds cu user_id provider_user_id = Except.ok
        [("api", RVal.api a), ("user_id", RVal.str c.user_id),
         ("provider_id", RVal.str c.provider_id),
         ("provider_user_id", RVal.str c.provider_user_id),
         ("access_token", RVal.str c.access_token),
         ("secret", RVal.str c.secret),
         ("display_name", RVal.str c.display_name),
         ("profile_url", RVal.str c.profile_url),
         ("image_url", RVal.str c.image_url)]) ∧
    (f.create_api = base_create_api Api →
      f.get_connection ds cu user_id provider_user_id
        = Except.error PyError.notImplemented) := by
  constructor
  · intro a ha
    simp [ConnectionFactory.get_connection, hres, ha, as_dict]
  · intro hb
    simp [ConnectionFactory.get_connection, hres, hb, base_create_api]

/-- C9 (witness): with a resolving datastore and a succeeding
`_create_api`, the result mapping is exactly `api` plus the eight fields of
`cW`, in order. -/
theorem get_connection_result_exact_fields_witness :
    resolveConnection dsW ("u") fW.provider_id none none = Except.ok cW ∧
    fW.get_connection dsW ("u") none none = Except.ok
      [("api", RVal.api "api-client"), ("user_id", RVal.str "u1"),
       ("provider_id", RVal.str "twitter"),
       ("provider_user_id", RVal.str "pu1"),
       ("access_token", RVal.str "tok"), ("secret", RVal.str "sec"),
       ("display_name", RVal.str "dn"), ("profile_url", RVal.str "purl"),
       ("image_url", RVal.str "iurl")] :=
  ⟨rfl,
   (get_connection_result_exact_fields fW dsW ("u") none none cW rfl).1
     ("api-client") rfl⟩

/-- C10: `Social.init_app` copies the compiled-in default config dict and
its `oauth` sub-dict before merging, so after a successful scan of all
configuration keys the default config object and its oauth object are
unchanged on the heap — a later initialization sees the same defaults. -/
theorem init_app_preserves_builtin_defaults
    (builtins : List String) (defaultFor : String → Option Nat)
    (st st' : InitState) (keys : List String) (pid : String)
    (dRef oRef : Nat)
    (hdf : defaultFor pid = some dRef)
    (hdl : dRef < st.heap.length)
    (hdo : dictGet (heapGet st.heap dRef) ("oauth") = some (HVal.vref oRef))
    (hol : oRef < st.heap.length)
    (hscan : scanConfig builtins defaultFor st keys = some st') :
    heapGet st'.heap dRef = heapGet st.heap dRef ∧
    heapGet st'.heap oRef = heapGet st.heap oRef :=
  ⟨(scanConfig_frame builtins defaultFor keys st st' hscan dRef hdl).1,
   (scanConfig_frame builtins defaultFor keys st st' hscan oRef hol).1⟩

/-- C10 (witness): scanning the twitter example leaves the default config
(reference 0) and its oauth dict (reference 2) exactly as they were. -/
theorem init_app_preserves_builtin_defaults_witness :
    scanConfig ["twitter"] dfW stW ["SOCIAL_TWITTER"] = some stWafter ∧
    heapGet stWafter.heap 0 = heapGet stW.heap 0 ∧
    heapGet stWafter.heap 2 = heapGet stW.heap 2 :=
  ⟨rfl,
   init_app_preserves_builtin_defaults ["twitter"] dfW stW stWafter
     ["SOCIAL_TWITTER"] ("twitter") 0 2 rfl (by decide) rfl (by decide) rfl⟩
